import Mathlib

/-!
Verification of the phonebook CRUD server (`src/server.js`).

The contacts table is embedded as a `List Contact` in rowid (insertion)
order.  A request-body field, as the handlers see it after
`req.body || {}` and JSON parsing, is `absent` (JS `undefined`),
`null`, or a string; a missing or malformed body is the empty object,
i.e. all three fields `absent`.  Each prepared statement of the source
(`stmtAll`, `stmtGet`, `stmtAdd`, `stmtUpd`, `stmtDel`) is one Lean
function; `stmtAdd` returns `Option` because the PRIMARY KEY constraint
on `id` makes the insert throw when the id already exists, and a thrown
storage exception propagates out of the handler (modelled as `none`).
-/

namespace Phonebook

/-- A JSON-parsed request-body field as destructured by the handlers:
JS `undefined` (field absent), JSON `null`, or a string value. -/
inductive JsonField where
  | absent
  | null
  | str (s : String)
deriving Repr, DecidableEq

/-- JS truthiness as used by `if (!name || !phone)`: of the field shapes
modelled here, only a non-empty string is truthy. -/
def JsonField.truthy : JsonField → Bool
  | .str s => s != ""
  | _ => false

/-- The destructuring default `email = ''`: an absent field (JS
`undefined`) becomes the empty string; `null` and strings pass through. -/
def JsonField.withDefault : JsonField → JsonField
  | .absent => .str ""
  | f => f

/-- The string carried by a field; the handlers read `name`/`phone` only
after the truthiness check has guaranteed a non-empty string. -/
def JsonField.getStr : JsonField → String
  | .str s => s
  | _ => ""

/-- The SQL value a field binds to: `null` binds SQL NULL, a string
binds itself. -/
def JsonField.toSql : JsonField → Option String
  | .str s => some s
  | _ => none

/-- A row of the `contacts` table.  `email` is `Option String` because
the column has no NOT NULL constraint and an explicit JSON `null` is
stored as SQL NULL. -/
structure Contact where
  id : String
  name : String
  phone : String
  email : Option String
deriving Repr, DecidableEq

/-- The `contacts` table, in rowid (insertion) order. -/
abbrev Store := List Contact

/-- `SELECT id, name, phone, email FROM contacts WHERE id = ?`. -/
def stmtGet (store : Store) (id : String) : Option Contact :=
  store.find? (fun c => c.id == id)

/-- `INSERT INTO contacts(id, name, phone, email) VALUES (?, ?, ?, ?)`;
throws (`none`) when the PRIMARY KEY constraint on `id` is violated. -/
def stmtAdd (store : Store) (c : Contact) : Option Store :=
  if store.any (fun x => x.id == c.id) then none else some (store ++ [c])

/-- `UPDATE contacts SET name = ?, phone = ?, email = ? WHERE id = ?`. -/
def stmtUpd (store : Store) (name phone : String) (email : Option String)
    (id : String) : Store :=
  store.map (fun c =>
    if c.id == id then { c with name := name, phone := phone, email := email }
    else c)

/-- `DELETE FROM contacts WHERE id = ?`; returns `info.changes` (the
number of rows removed) together with the table afterwards. -/
def stmtDel (store : Store) (id : String) : Nat × Store :=
  let kept := store.filter (fun c => c.id != id)
  (store.length - kept.length, kept)

/-- The comparison `ORDER BY name` uses: SQLite BINARY collation on
UTF-8 text, which coincides with code-point lexicographic order. -/
def nameLe (a b : Contact) : Bool := decide (a.name ≤ b.name)

/-- `SELECT id, name, phone, email FROM contacts ORDER BY name`. -/
def stmtAll (store : Store) : List Contact :=
  store.mergeSort nameLe

/-- A response body: empty (`res.send()`), a single contact, a JSON
array of contacts, or an error object. -/
inductive RespBody where
  | empty
  | json (c : Contact)
  | jsonList (cs : List Contact)
  | jsonError (msg : String)
deriving Repr, DecidableEq

/-- An HTTP response: status code and body. -/
structure Response where
  status : Nat
  body : RespBody
deriving Repr, DecidableEq

/-- The destructured request body `const { name, phone, email = '' } = req.body || {}`
before the `email` default is applied. -/
structure ReqBody where
  name : JsonField
  phone : JsonField
  email : JsonField
deriving Repr, DecidableEq

/-- `req.body || {}` for a missing or malformed body: the empty object,
every field absent. -/
def emptyBody : ReqBody := ⟨.absent, .absent, .absent⟩

/-- Handler for `GET /contacts`: `res.json(stmtAll.all())`. -/
def getContacts (store : Store) : Response × Store :=
  (⟨200, .jsonList (stmtAll store)⟩, store)

/-- Handler for `POST /contacts`.  `freshId` is the value of `uuid()`.
`none` models an uncaught storage exception escaping the handler. -/
def postContacts (store : Store) (body : ReqBody) (freshId : String) :
    Option (Response × Store) :=
  if body.name.truthy && body.phone.truthy then
    let email := body.email.withDefault
    match stmtAdd store ⟨freshId, body.name.getStr, body.phone.getStr, email.toSql⟩ with
    | none => none
    | some store1 =>
      match stmtGet store1 freshId with
      | some created => some (⟨201, .json created⟩, store1)
      | none => none
  else
    some (⟨400, .jsonError "Name and phone are required."⟩, store)

/-- Handler for `PUT /contacts/:id`: validate, then look up, then
update and read the row back. -/
def putContacts (store : Store) (rid : String) (body : ReqBody) :
    Response × Store :=
  if body.name.truthy && body.phone.truthy then
    match stmtGet store rid with
    | none => (⟨404, .jsonError "Contact not found."⟩, store)
    | some _ =>
      let email := body.email.withDefault
      let store1 := stmtUpd store body.name.getStr body.phone.getStr email.toSql rid
      match stmtGet store1 rid with
      | some updated => (⟨200, .json updated⟩, store1)
      | none => (⟨200, .empty⟩, store1)
  else
    (⟨400, .jsonError "Name and phone are required."⟩, store)

/-- Handler for `DELETE /contacts/:id`: run the delete, 404 when
`info.changes === 0`, else 204 with empty body. -/
def deleteContacts (store : Store) (rid : String) : Response × Store :=
  let r := stmtDel store rid
  if r.1 == 0 then (⟨404, .jsonError "Contact not found."⟩, r.2)
  else (⟨204, .empty⟩, r.2)

/-- First seeded contact of the startup block. -/
def ronLevi (id : String) : Contact :=
  ⟨id, "Ron Levi", "050-111-2233", some "ron@example.com"⟩

/-- Second seeded contact of the startup block. -/
def marineAzulay (id : String) : Contact :=
  ⟨id, "Marine Azulay", "052-444-5566", some "marine@example.com"⟩

/-- Startup seeding: when `COUNT(*)` is 0, insert the two fixed
contacts; `id1` and `id2` are the two `uuid()` results. -/
def seedIfEmpty (store : Store) (id1 id2 : String) : Option Store :=
  if store.length == 0 then
    match stmtAdd store (ronLevi id1) with
    | none => none
    | some s1 => stmtAdd s1 (marineAzulay id2)
  else some store

/-- The store invariant of the spec: ids are pairwise distinct, and
`name` and `phone` are non-empty on every row. -/
def StoreInv (store : Store) : Prop :=
  (store.map Contact.id).Nodup ∧ ∀ c ∈ store, c.name ≠ "" ∧ c.phone ≠ ""

/-- A field is truthy exactly when it is a non-empty string. -/
lemma truthy_iff (f : JsonField) : f.truthy = true ↔ ∃ s, f = .str s ∧ s ≠ "" := by
  cases f <;> simp [JsonField.truthy]

/-- A truthy field carries a non-empty string. -/
lemma getStr_ne_of_truthy (f : JsonField) (h : f.truthy = true) :
    f.getStr ≠ "" := by
  cases f <;> simp_all [JsonField.truthy, JsonField.getStr]

/-- A failed validation on POST: 400 and the store is untouched. -/
lemma postContacts_invalid (store : Store) (body : ReqBody) (freshId : String)
    (h : (body.name.truthy && body.phone.truthy) = false) :
    postContacts store body freshId =
      some (⟨400, .jsonError "Name and phone are required."⟩, store) := by
  unfold postContacts
  simp [h]

/-- A failed validation on PUT: 400 and the store is untouched. -/
lemma putContacts_invalid (store : Store) (rid : String) (body : ReqBody)
    (h : (body.name.truthy && body.phone.truthy) = false) :
    putContacts store rid body =
      (⟨400, .jsonError "Name and phone are required."⟩, store) := by
  unfold putContacts
  simp [h]

/-- The negation of the valid-body condition, as a Bool equation. -/
lemma truthy_and_false (body : ReqBody)
    (h : ¬ (body.name.truthy = true ∧ body.phone.truthy = true)) :
    (body.name.truthy && body.phone.truthy) = false := by
  cases hn : body.name.truthy <;> cases hp : body.phone.truthy <;> simp_all

/-- Reading the updated row back: `stmtGet` after `stmtUpd` on the same
id returns the old row with `name`, `phone`, `email` overwritten. -/
lemma stmtGet_stmtUpd (store : Store) (n p : String) (e : Option String)
    (rid : String) :
    stmtGet (stmtUpd store n p e rid) rid =
      (stmtGet store rid).map
        (fun c => { c with name := n, phone := p, email := e }) := by
  unfold stmtGet stmtUpd
  rw [List.find?_map]
  have h1 : ((fun c : Contact => c.id == rid) ∘
      (fun c : Contact =>
        if c.id == rid then { c with name := n, phone := p, email := e }
        else c)) = fun c : Contact => c.id == rid := by
    funext c
    by_cases h : c.id = rid <;> simp [h]
  rw [h1]
  cases hf : store.find? (fun c : Contact => c.id == rid) with
  | none => simp
  | some c =>
    have heq : c.id = rid := by
      have h2 := List.find?_some hf
      simpa using h2
    simp [heq]

/-- A successful insert: with a fresh id and truthy `name`/`phone`,
`POST /contacts` appends the new row and returns it with 201. -/
lemma postContacts_fresh (store : Store) (body : ReqBody) (freshId : String)
    (hn : body.name.truthy = true) (hp : body.phone.truthy = true)
    (hfresh : ∀ c ∈ store, c.id ≠ freshId) :
    postContacts store body freshId =
      some (⟨201, .json ⟨freshId, body.name.getStr, body.phone.getStr,
                          body.email.withDefault.toSql⟩⟩,
            store ++ [⟨freshId, body.name.getStr, body.phone.getStr,
                       body.email.withDefault.toSql⟩]) := by
  unfold postContacts
  have hany : store.any (fun x => x.id == freshId) = false := by
    simp only [List.any_eq_false]
    intro x hx
    simpa using hfresh x hx
  have hnone : store.find? (fun c : Contact => c.id == freshId) = none := by
    simp only [List.find?_eq_none]
    intro x hx
    simpa using hfresh x hx
  simp [hn, hp, stmtAdd, hany, stmtGet, hnone]

/-- A successful update: with the row present and truthy `name`/`phone`,
`PUT /contacts/:id` overwrites the row and returns it with 200. -/
lemma putContacts_found (store : Store) (rid : String) (body : ReqBody)
    (hn : body.name.truthy = true) (hp : body.phone.truthy = true)
    (c : Contact) (hc : stmtGet store rid = some c) :
    putContacts store rid body =
      (⟨200, .json { c with
                     name := body.name.getStr
                     phone := body.phone.getStr
                     email := body.email.withDefault.toSql }⟩,
       stmtUpd store body.name.getStr body.phone.getStr
         body.email.withDefault.toSql rid) := by
  unfold putContacts
  simp only [hn, hp, Bool.and_self, if_true, hc]
  rw [stmtGet_stmtUpd, hc]
  simp

/-- C1: `POST /contacts` whose body is missing, malformed, or lacks a
non-empty `name` or non-empty `phone` (i.e. not both fields truthy)
responds 400 with the fixed error message and leaves the store
unchanged: no row is created. -/
theorem post_invalid_returns_400_unchanged (store : Store) (body : ReqBody)
    (freshId : String)
    (h : ¬ (body.name.truthy = true ∧ body.phone.truthy = true)) :
    postContacts store body freshId =
      some (⟨400, .jsonError "Name and phone are required."⟩, store) :=
  postContacts_invalid store body freshId (truthy_and_false body h)

/-- C1 witness: a missing/malformed body (the empty object) on the
store holding one row gets 400 and the row survives untouched. -/
theorem post_invalid_returns_400_unchanged_witness :
    postContacts [⟨"a", "Amy", "1", some ""⟩] emptyBody "fresh" =
      some (⟨400, .jsonError "Name and phone are required."⟩,
            [⟨"a", "Amy", "1", some ""⟩]) :=
  post_invalid_returns_400_unchanged [⟨"a", "Amy", "1", some ""⟩]
    emptyBody "fresh" (by simp [emptyBody, JsonField.truthy])

/-- A delete that matches no row: 404 and the table is untouched. -/
lemma deleteContacts_miss (store : Store) (rid : String)
    (h : ∀ c ∈ store, c.id ≠ rid) :
    deleteContacts store rid =
      (⟨404, .jsonError "Contact not found."⟩, store) := by
  have hkeep : store.filter (fun c => c.id != rid) = store :=
    List.filter_eq_self.mpr (by intro a ha; simpa using h a ha)
  unfold deleteContacts stmtDel
  simp [hkeep]

/-- A delete that matches a row: 204 and the matching rows are removed. -/
lemma deleteContacts_hit (store : Store) (rid : String)
    (h : ∃ c ∈ store, c.id = rid) :
    deleteContacts store rid =
      (⟨204, .empty⟩, store.filter (fun c => c.id != rid)) := by
  obtain ⟨c, hc, hid⟩ := h
  have hne : store.filter (fun c => c.id != rid) ≠ store := by
    intro heq
    have hmemf : c ∈ store.filter (fun c => c.id != rid) := by
      rw [heq]
      exact hc
    have := List.of_mem_filter hmemf
    simp [hid] at this
  have hlt : (store.filter (fun c => c.id != rid)).length < store.length := by
    rcases Nat.lt_or_ge (store.filter (fun c => c.id != rid)).length
        store.length with h1 | h1
    · exact h1
    · exact absurd ((store.filter_sublist).eq_of_length
        (Nat.le_antisymm (List.length_filter_le _ _) h1)) hne
  have hch : (store.length - (store.filter (fun c => c.id != rid)).length
      == 0) = false := by
    simp only [beq_eq_false_iff_ne, ne_eq, Nat.sub_eq_zero_iff_le]
    omega
  unfold deleteContacts stmtDel
  simp [hch]

/-- C2: with a valid body, `PUT /contacts/:id` on an unknown id responds
404 and leaves the store unchanged; on a known id it responds 200 with
the updated contact as read back from storage after the update. -/
theorem put_contract (store : Store) (rid : String) (body : ReqBody)
    (hn : body.name.truthy = true) (hp : body.phone.truthy = true) :
    (stmtGet store rid = none →
       putContacts store rid body =
         (⟨404, .jsonError "Contact not found."⟩, store)) ∧
    (∀ c, stmtGet store rid = some c →
       ∃ updated,
         stmtGet (stmtUpd store body.name.getStr body.phone.getStr
           body.email.withDefault.toSql rid) rid = some updated ∧
         putContacts store rid body =
           (⟨200, .json updated⟩,
            stmtUpd store body.name.getStr body.phone.getStr
              body.email.withDefault.toSql rid)) := by
  constructor
  · intro hnone
    unfold putContacts
    simp [hn, hp, hnone]
  · intro c hc
    refine ⟨{ c with
              name := body.name.getStr
              phone := body.phone.getStr
              email := body.email.withDefault.toSql }, ?_, ?_⟩
    · rw [stmtGet_stmtUpd, hc]
      rfl
    · exact putContacts_found store rid body hn hp c hc

/-- C2 witness: on a one-row store, a valid PUT to a missing id gives
404 unchanged, and a valid PUT to the existing id gives 200 with the
row read back after the update. -/
theorem put_contract_witness :
    putContacts [⟨"a", "Amy", "1", some ""⟩] "missing"
        ⟨.str "Bob", .str "2", .absent⟩ =
      (⟨404, .jsonError "Contact not found."⟩, [⟨"a", "Amy", "1", some ""⟩]) ∧
    (∃ updated,
       stmtGet (stmtUpd [⟨"a", "Amy", "1", some ""⟩] "Bob" "2" (some "") "a")
         "a" = some updated ∧
       putContacts [⟨"a", "Amy", "1", some ""⟩] "a"
           ⟨.str "Bob", .str "2", .absent⟩ =
         (⟨200, .json updated⟩,
          stmtUpd [⟨"a", "Amy", "1", some ""⟩] "Bob" "2" (some "") "a")) :=
  ⟨(put_contract [⟨"a", "Amy", "1", some ""⟩] "missing"
      ⟨.str "Bob", .str "2", .absent⟩ (by decide) (by decide)).1 (by decide),
   (put_contract [⟨"a", "Amy", "1", some ""⟩] "a"
      ⟨.str "Bob", .str "2", .absent⟩ (by decide) (by decide)).2
     ⟨"a", "Amy", "1", some ""⟩ (by decide)⟩

/-- C3: `DELETE /contacts/:id` responds 204 with empty body and removes
the row when the id is present, responds 404 leaving the store unchanged
when it is absent, and a second DELETE of the same id responds 404. -/
theorem delete_contract (store : Store) (rid : String) :
    ((∃ c ∈ store, c.id = rid) →
       deleteContacts store rid =
         (⟨204, .empty⟩, store.filter (fun c => c.id != rid)) ∧
       (∀ c ∈ (deleteContacts store rid).2, c.id ≠ rid) ∧
       (deleteContacts (deleteContacts store rid).2 rid).1 =
         ⟨404, .jsonError "Contact not found."⟩) ∧
    ((∀ c ∈ store, c.id ≠ rid) →
       deleteContacts store rid =
         (⟨404, .jsonError "Contact not found."⟩, store)) := by
  constructor
  · intro hex
    have hdel := deleteContacts_hit store rid hex
    have hmem0 : ∀ c ∈ store.filter (fun c => c.id != rid), c.id ≠ rid := by
      intro c hc
      have := List.of_mem_filter hc
      simpa using this
    have hmem : ∀ c ∈ (deleteContacts store rid).2, c.id ≠ rid := by
      rw [hdel]
      exact hmem0
    refine ⟨hdel, hmem, ?_⟩
    rw [deleteContacts_miss (deleteContacts store rid).2 rid hmem]
  · exact deleteContacts_miss store rid

/-- C3 witness: deleting the only row gives 204 and empties the store;
deleting again gives 404; deleting a missing id gives 404 unchanged. -/
theorem delete_contract_witness :
    (deleteContacts [⟨"a", "Amy", "1", some ""⟩] "a" =
       (⟨204, .empty⟩, []) ∧
     (deleteContacts (deleteContacts [⟨"a", "Amy", "1", some ""⟩] "a").2
        "a").1 = ⟨404, .jsonError "Contact not found."⟩) ∧
    deleteContacts [⟨"a", "Amy", "1", some ""⟩] "b" =
      (⟨404, .jsonError "Contact not found."⟩, [⟨"a", "Amy", "1", some ""⟩]) := by
  have h1 := (delete_contract [⟨"a", "Amy", "1", some ""⟩] "a").1
    ⟨⟨"a", "Amy", "1", some ""⟩, by decide, by decide⟩
  have h2 := (delete_contract [⟨"a", "Amy", "1", some ""⟩] "b").2
    (by decide)
  exact ⟨⟨h1.1.trans (by decide), h1.2.2⟩, h2⟩

/-- C4: `GET /contacts` responds 200 with all stored contacts in one
array that is a permutation of the store, ordered by `name` ascending,
and does not modify the store. -/
theorem list_sorted_by_name (store : Store) :
    getContacts store = (⟨200, .jsonList (stmtAll store)⟩, store) ∧
    List.Perm (stmtAll store) store ∧
    (stmtAll store).Pairwise (fun a b => a.name ≤ b.name) := by
  refine ⟨rfl, List.mergeSort_perm store nameLe, ?_⟩
  have htrans : ∀ a b c : Contact,
      nameLe a b → nameLe b c → nameLe a c := by
    intro a b c hab hbc
    simp only [nameLe, decide_eq_true_eq] at hab hbc ⊢
    exact le_trans hab hbc
  have htot : ∀ a b : Contact, nameLe a b || nameLe b a := by
    intro a b
    simp only [nameLe, Bool.or_eq_true, decide_eq_true_eq]
    exact le_total a.name b.name
  have h : (store.mergeSort nameLe).Pairwise (fun a b => nameLe a b) :=
    List.sorted_mergeSort htrans htot store
  exact h.imp (fun hab => of_decide_eq_true hab)

/-- C9: `PUT /contacts/:id` with a body lacking a truthy `name` or
`phone` responds 400 whatever the store holds — the validation runs
before the existence lookup, so it never responds 404. -/
theorem put_validates_before_lookup (store : Store) (rid : String)
    (body : ReqBody)
    (h : ¬ (body.name.truthy = true ∧ body.phone.truthy = true)) :
    putContacts store rid body =
      (⟨400, .jsonError "Name and phone are required."⟩, store) :=
  putContacts_invalid store rid body (truthy_and_false body h)

/-- C9 witness: an invalid body PUT to an id absent from the (empty)
store is answered 400, not 404. -/
theorem put_validates_before_lookup_witness :
    putContacts [] "missing" emptyBody =
      (⟨400, .jsonError "Name and phone are required."⟩, []) :=
  put_validates_before_lookup [] "missing" emptyBody
    (by simp [emptyBody, JsonField.truthy])

/-- C6: with non-empty `name` and `phone` and no `email` field, POST
stores and returns the contact with `email = ""` and the request's name
and phone, answering 201 with the row read back; a PUT with such a body
likewise stores and returns `email = ""`. -/
theorem email_defaults_to_empty_string (store : Store) (n p freshId : String)
    (hn : n ≠ "") (hp : p ≠ "")
    (hfresh : ∀ c ∈ store, c.id ≠ freshId) :
    postContacts store ⟨.str n, .str p, .absent⟩ freshId =
      some (⟨201, .json ⟨freshId, n, p, some ""⟩⟩,
            store ++ [⟨freshId, n, p, some ""⟩]) ∧
    (∀ rid c, stmtGet store rid = some c →
       putContacts store rid ⟨.str n, .str p, .absent⟩ =
         (⟨200, .json ⟨c.id, n, p, some ""⟩⟩,
          stmtUpd store n p (some "") rid) ∧
       stmtGet (stmtUpd store n p (some "") rid) rid =
         some ⟨c.id, n, p, some ""⟩) := by
  have htn : (JsonField.str n).truthy = true := by
    simp [JsonField.truthy, hn]
  have htp : (JsonField.str p).truthy = true := by
    simp [JsonField.truthy, hp]
  constructor
  · exact postContacts_fresh store ⟨.str n, .str p, .absent⟩ freshId
      htn htp hfresh
  · intro rid c hc
    constructor
    · exact putContacts_found store rid ⟨.str n, .str p, .absent⟩
        htn htp c hc
    · rw [stmtGet_stmtUpd, hc]
      rfl

/-- C6 witness: a POST without `email` on the empty store creates a row
with `email = ""`, and a PUT without `email` on that row keeps
`email = ""`. -/
theorem email_defaults_to_empty_string_witness :
    postContacts [] ⟨.str "Amy", .str "1", .absent⟩ "a" =
      some (⟨201, .json ⟨"a", "Amy", "1", some ""⟩⟩,
            [⟨"a", "Amy", "1", some ""⟩]) ∧
    (putContacts [⟨"a", "Amy", "1", some ""⟩] "a"
         ⟨.str "Bob", .str "2", .absent⟩ =
       (⟨200, .json ⟨"a", "Bob", "2", some ""⟩⟩,
        stmtUpd [⟨"a", "Amy", "1", some ""⟩] "Bob" "2" (some "") "a") ∧
     stmtGet (stmtUpd [⟨"a", "Amy", "1", some ""⟩] "Bob" "2" (some "") "a")
         "a" = some ⟨"a", "Bob", "2", some ""⟩) :=
  ⟨(email_defaults_to_empty_string [] "Amy" "1" "a" (by decide) (by decide)
      (by decide)).1,
   (email_defaults_to_empty_string [⟨"a", "Amy", "1", some ""⟩] "Bob" "2"
      "fresh" (by decide) (by decide) (by decide)).2 "a"
     ⟨"a", "Amy", "1", some ""⟩ (by decide)⟩

/-- C10: an explicit `email: null` bypasses the destructuring default,
so POST and PUT store and return SQL NULL (`none`) for `email` — the
returned contact's email is not a string in that case. -/
theorem email_null_stored_as_null (store : Store) (n p freshId : String)
    (hn : n ≠ "") (hp : p ≠ "")
    (hfresh : ∀ c ∈ store, c.id ≠ freshId) :
    postContacts store ⟨.str n, .str p, .null⟩ freshId =
      some (⟨201, .json ⟨freshId, n, p, none⟩⟩,
            store ++ [⟨freshId, n, p, none⟩]) ∧
    (∀ rid c, stmtGet store rid = some c →
       putContacts store rid ⟨.str n, .str p, .null⟩ =
         (⟨200, .json ⟨c.id, n, p, none⟩⟩, stmtUpd store n p none rid) ∧
       stmtGet (stmtUpd store n p none rid) rid =
         some ⟨c.id, n, p, none⟩) := by
  have htn : (JsonField.str n).truthy = true := by
    simp [JsonField.truthy, hn]
  have htp : (JsonField.str p).truthy = true := by
    simp [JsonField.truthy, hp]
  constructor
  · exact postContacts_fresh store ⟨.str n, .str p, .null⟩ freshId
      htn htp hfresh
  · intro rid c hc
    constructor
    · exact putContacts_found store rid ⟨.str n, .str p, .null⟩
        htn htp c hc
    · rw [stmtGet_stmtUpd, hc]
      rfl

/-- C10 witness: `email: null` on POST creates a row with NULL email,
and on PUT overwrites the email with NULL. -/
theorem email_null_stored_as_null_witness :
    postContacts [] ⟨.str "Amy", .str "1", .null⟩ "a" =
      some (⟨201, .json ⟨"a", "Amy", "1", none⟩⟩,
            [⟨"a", "Amy", "1", none⟩]) ∧
    putContacts [⟨"a", "Amy", "1", some ""⟩] "a"
        ⟨.str "Bob", .str "2", .null⟩ =
      (⟨200, .json ⟨"a", "Bob", "2", none⟩⟩,
       stmtUpd [⟨"a", "Amy", "1", some ""⟩] "Bob" "2" none "a") :=
  ⟨(email_null_stored_as_null [] "Amy" "1" "a" (by decide) (by decide)
      (by decide)).1,
   ((email_null_stored_as_null [⟨"a", "Amy", "1", some ""⟩] "Bob" "2"
      "fresh" (by decide) (by decide) (by decide)).2 "a"
     ⟨"a", "Amy", "1", some ""⟩ (by decide)).1⟩

/-- C7: a successful PUT keeps the store's length, leaves every row
whose id differs from `:id` exactly as it was, and rewrites only
`name`, `phone`, `email` of the matching row — its `id` survives. -/
theorem put_frame (store : Store) (rid : String) (body : ReqBody)
    (hn : body.name.truthy = true) (hp : body.phone.truthy = true)
    (c0 : Contact) (hc0 : stmtGet store rid = some c0) :
    ((putContacts store rid body).2).length = store.length ∧
    (∀ (i : Nat) (c : Contact), store[i]? = some c →
       (c.id ≠ rid → ((putContacts store rid body).2)[i]? = some c) ∧
       (c.id = rid → ((putContacts store rid body).2)[i]? =
          some { c with
                 name := body.name.getStr
                 phone := body.phone.getStr
                 email := body.email.withDefault.toSql })) := by
  have heq := putContacts_found store rid body hn hp c0 hc0
  rw [heq]
  refine ⟨by simp [stmtUpd], ?_⟩
  intro i c hci
  constructor
  · intro hne
    unfold stmtUpd
    rw [List.getElem?_map, hci]
    simp [hne]
  · intro he
    unfold stmtUpd
    rw [List.getElem?_map, hci]
    simp [he]

/-- C7 witness: updating row "a" in a two-row store keeps the length,
leaves row "b" untouched, and rewrites row "a" keeping its id. -/
theorem put_frame_witness :
    ((putContacts [⟨"a", "Amy", "1", some ""⟩, ⟨"b", "Bob", "2", none⟩]
        "a" ⟨.str "Ann", .str "9", .absent⟩).2).length = 2 ∧
    ((putContacts [⟨"a", "Amy", "1", some ""⟩, ⟨"b", "Bob", "2", none⟩]
        "a" ⟨.str "Ann", .str "9", .absent⟩).2)[1]? =
      some ⟨"b", "Bob", "2", none⟩ ∧
    ((putContacts [⟨"a", "Amy", "1", some ""⟩, ⟨"b", "Bob", "2", none⟩]
        "a" ⟨.str "Ann", .str "9", .absent⟩).2)[0]? =
      some ⟨"a", "Ann", "9", some ""⟩ := by
  have h := put_frame [⟨"a", "Amy", "1", some ""⟩, ⟨"b", "Bob", "2", none⟩]
    "a" ⟨.str "Ann", .str "9", .absent⟩ (by decide) (by decide)
    ⟨"a", "Amy", "1", some ""⟩ (by decide)
  refine ⟨h.1, (h.2 1 ⟨"b", "Bob", "2", none⟩ (by decide)).1 (by decide), ?_⟩
  exact (h.2 0 ⟨"a", "Amy", "1", some ""⟩ (by decide)).2 (by decide)

/-- Any successful POST either leaves the store unchanged (failed
validation) or appends one row with a fresh id built from the body. -/
lemma postContacts_cases (store : Store) (body : ReqBody) (freshId : String)
    (r : Response) (store1 : Store)
    (h : postContacts store body freshId = some (r, store1)) :
    store1 = store ∨
    (body.name.truthy = true ∧ body.phone.truthy = true ∧
     (∀ x ∈ store, x.id ≠ freshId) ∧
     store1 = store ++ [⟨freshId, body.name.getStr, body.phone.getStr,
                         body.email.withDefault.toSql⟩]) := by
  by_cases hv : body.name.truthy = true ∧ body.phone.truthy = true
  · obtain ⟨hn, hp⟩ := hv
    by_cases hfresh : ∀ x ∈ store, x.id ≠ freshId
    · rw [postContacts_fresh store body freshId hn hp hfresh] at h
      right
      refine ⟨hn, hp, hfresh, ?_⟩
      simp only [Option.some.injEq, Prod.mk.injEq] at h
      exact h.2.symm
    · exfalso
      have hany : store.any (fun x => x.id == freshId) = true := by
        push_neg at hfresh
        obtain ⟨x, hx, he⟩ := hfresh
        simp only [List.any_eq_true]
        exact ⟨x, hx, by simpa using he⟩
      unfold postContacts at h
      rw [hn, hp] at h
      simp [stmtAdd, hany] at h
  · left
    rw [postContacts_invalid store body freshId (truthy_and_false body hv)]
      at h
    simp only [Option.some.injEq, Prod.mk.injEq] at h
    exact h.2.symm

/-- The store after a PUT is either untouched (failed validation or
missing id) or the result of the update statement. -/
lemma putContacts_snd_cases (store : Store) (rid : String) (body : ReqBody) :
    (putContacts store rid body).2 = store ∨
    (body.name.truthy = true ∧ body.phone.truthy = true ∧
     (putContacts store rid body).2 =
       stmtUpd store body.name.getStr body.phone.getStr
         body.email.withDefault.toSql rid) := by
  by_cases hv : body.name.truthy = true ∧ body.phone.truthy = true
  · obtain ⟨hn, hp⟩ := hv
    cases hget : stmtGet store rid with
    | none =>
      left
      unfold putContacts
      simp [hn, hp, hget]
    | some c =>
      right
      refine ⟨hn, hp, ?_⟩
      rw [putContacts_found store rid body hn hp c hget]
  · left
    rw [putContacts_invalid store rid body (truthy_and_false body hv)]

/-- The store after a DELETE is the filtered table, in all cases. -/
lemma deleteContacts_snd (store : Store) (rid : String) :
    (deleteContacts store rid).2 = store.filter (fun c => c.id != rid) := by
  unfold deleteContacts stmtDel
  by_cases h : store.length -
      (store.filter (fun c => c.id != rid)).length = 0 <;> simp [h]

/-- A successful startup seeding either filled the empty table with the
two fixed rows (their ids distinct) or found the table non-empty and
left it alone. -/
lemma seedIfEmpty_cases (store : Store) (id1 id2 : String) (store1 : Store)
    (h : seedIfEmpty store id1 id2 = some store1) :
    (store = [] ∧ id1 ≠ id2 ∧
     store1 = [ronLevi id1, marineAzulay id2]) ∨
    (store ≠ [] ∧ store1 = store) := by
  cases store with
  | nil =>
    left
    unfold seedIfEmpty stmtAdd at h
    by_cases hid : id1 = id2
    · exfalso
      simp [ronLevi, marineAzulay, hid] at h
    · refine ⟨rfl, hid, ?_⟩
      simp [ronLevi, marineAzulay, hid] at h
      exact h.symm
  | cons a l =>
    right
    unfold seedIfEmpty at h
    simp only [List.length_cons, Nat.succ_ne_zero, beq_iff_eq, if_false,
      Option.some.injEq] at h
    exact ⟨by simp, h.symm⟩

/-- The invariant survives appending a row with a fresh id and
non-empty name and phone. -/
lemma StoreInv_append (store : Store) (c : Contact) (hinv : StoreInv store)
    (hfresh : ∀ x ∈ store, x.id ≠ c.id)
    (hn : c.name ≠ "") (hp : c.phone ≠ "") :
    StoreInv (store ++ [c]) := by
  obtain ⟨hnodup, hfields⟩ := hinv
  constructor
  · rw [List.map_append, List.nodup_append]
    refine ⟨hnodup, by simp, ?_⟩
    intro a ha hb
    simp only [List.mem_map] at ha
    obtain ⟨x, hx, hxa⟩ := ha
    simp only [List.map_cons, List.map_nil, List.mem_singleton] at hb
    exact hfresh x hx (by rw [hxa, hb])
  · intro x hx
    rcases List.mem_append.mp hx with h1 | h1
    · exact hfields x h1
    · simp only [List.mem_singleton] at h1
      subst h1
      exact ⟨hn, hp⟩

/-- The invariant survives an update writing non-empty name and phone:
ids are untouched and only matching rows change. -/
lemma StoreInv_stmtUpd (store : Store) (n p : String) (e : Option String)
    (rid : String) (hinv : StoreInv store) (hn : n ≠ "") (hp : p ≠ "") :
    StoreInv (stmtUpd store n p e rid) := by
  obtain ⟨hnodup, hfields⟩ := hinv
  constructor
  · have hids : (stmtUpd store n p e rid).map Contact.id =
        store.map Contact.id := by
      unfold stmtUpd
      rw [List.map_map]
      apply List.map_congr_left
      intro c _
      by_cases h : c.id = rid <;> simp [h]
    rw [hids]
    exact hnodup
  · intro x hx
    unfold stmtUpd at hx
    rw [List.mem_map] at hx
    obtain ⟨y, hy, hyx⟩ := hx
    by_cases h : y.id = rid
    · rw [← hyx]
      simp [h, hn, hp]
    · rw [← hyx]
      simp only [h, beq_iff_eq, if_false]
      exact hfields y hy

/-- The invariant survives filtering (deleting rows). -/
lemma StoreInv_filter (store : Store) (q : Contact → Bool)
    (hinv : StoreInv store) : StoreInv (store.filter q) := by
  obtain ⟨hnodup, hfields⟩ := hinv
  refine ⟨?_, fun c hc => hfields c (List.mem_of_mem_filter hc)⟩
  exact List.Nodup.sublist (List.Sublist.map Contact.id
    (List.filter_sublist store)) hnodup

/-- C5: POST, PUT, DELETE and startup seeding each preserve the store
invariant — unique ids, non-empty `name` and `phone` — whenever they
return a store at all. -/
theorem ops_preserve_invariant (store : Store) (hinv : StoreInv store) :
    (∀ body freshId r store1,
       postContacts store body freshId = some (r, store1) →
       StoreInv store1) ∧
    (∀ rid body, StoreInv (putContacts store rid body).2) ∧
    (∀ rid, StoreInv (deleteContacts store rid).2) ∧
    (∀ id1 id2 store1, seedIfEmpty store id1 id2 = some store1 →
       StoreInv store1) := by
  refine ⟨?_, ?_, ?_, ?_⟩
  · intro body freshId r store1 h
    rcases postContacts_cases store body freshId r store1 h with
      h1 | ⟨hn, hp, hfresh, h1⟩
    · rw [h1]
      exact hinv
    · rw [h1]
      exact StoreInv_append store _ hinv (fun x hx => hfresh x hx)
        (getStr_ne_of_truthy _ hn) (getStr_ne_of_truthy _ hp)
  · intro rid body
    rcases putContacts_snd_cases store rid body with h1 | ⟨hn, hp, h1⟩
    · rw [h1]
      exact hinv
    · rw [h1]
      exact StoreInv_stmtUpd store _ _ _ rid hinv
        (getStr_ne_of_truthy _ hn) (getStr_ne_of_truthy _ hp)
  · intro rid
    rw [deleteContacts_snd]
    exact StoreInv_filter store _ hinv
  · intro id1 id2 store1 h
    rcases seedIfEmpty_cases store id1 id2 store1 h with
      ⟨_, hid, h1⟩ | ⟨_, h1⟩
    · rw [h1]
      constructor
      · simp [ronLevi, marineAzulay, hid]
      · intro c hc
        simp only [List.mem_cons, List.not_mem_nil, or_false] at hc
        rcases hc with rfl | rfl
        · exact ⟨by simp [ronLevi], by simp [ronLevi]⟩
        · exact ⟨by simp [marineAzulay], by simp [marineAzulay]⟩
    · rw [h1]
      exact hinv

/-- C5 witness: the invariant holds after a PUT on a one-row store that
satisfies it. -/
theorem ops_preserve_invariant_witness :
    StoreInv ((putContacts [⟨"a", "Amy", "1", some ""⟩] "a"
        ⟨.str "Bob", .str "2", .absent⟩).2) :=
  (ops_preserve_invariant [⟨"a", "Amy", "1", some ""⟩]
      ⟨by simp, by
        intro c hc
        simp only [List.mem_singleton] at hc
        subst hc
        exact ⟨by decide, by decide⟩⟩).2.1
    "a" ⟨.str "Bob", .str "2", .absent⟩

/-- C8: startup on an empty table seeds exactly the two fixed contacts
named "Ron Levi" and "Marine Azulay"; startup on a non-empty table
inserts no rows. -/
theorem startup_seeding (store : Store) (id1 id2 : String) :
    (store = [] → id1 ≠ id2 →
       seedIfEmpty store id1 id2 =
         some [ronLevi id1, marineAzulay id2]) ∧
    (∀ store1, store = [] → seedIfEmpty store id1 id2 = some store1 →
       store1.length = 2 ∧
       store1.map Contact.name = ["Ron Levi", "Marine Azulay"]) ∧
    (store ≠ [] → seedIfEmpty store id1 id2 = some store) := by
  refine ⟨?_, ?_, ?_⟩
  · intro hs hid
    subst hs
    simp [seedIfEmpty, stmtAdd, ronLevi, marineAzulay, hid]
  · intro store1 hs h
    rcases seedIfEmpty_cases store id1 id2 store1 h with
      ⟨_, _, h1⟩ | ⟨hne, _⟩
    · subst h1
      exact ⟨rfl, by simp [ronLevi, marineAzulay]⟩
    · exact absurd hs hne
  · intro hne
    cases store with
    | nil => exact absurd rfl hne
    | cons a l => simp [seedIfEmpty]

/-- C8 witness: seeding fills the empty store with the two fixed rows
and leaves a one-row store alone. -/
theorem startup_seeding_witness :
    seedIfEmpty [] "u1" "u2" =
      some [ronLevi "u1", marineAzulay "u2"] ∧
    seedIfEmpty [⟨"x", "X", "0", none⟩] "u1" "u2" =
      some [⟨"x", "X", "0", none⟩] :=
  ⟨(startup_seeding [] "u1" "u2").1 rfl (by decide),
   (startup_seeding [⟨"x", "X", "0", none⟩] "u1" "u2").2.2 (by simp)⟩

end Phonebook
